import Mathlib

/-!
# Job Crawler home page: state, derived values and handlers

A shallow embedding of `src/pages/Home/index.js` and
`src/services/resources/jobs.js`.

Conventions of the embedding.

* A JavaScript value that the code tests with `!x` (the canonical dataset
  `data`, the filtered view `filteredList`) is an `Option`: `none` is an absent
  (null / undefined) value, `some l` an array.  Arrays are truthy, also the
  empty one.
* Salaries and the slider value are numbers; they are embedded as `Int`.
* A value that may be `undefined` (an out-of-range array read) is an `Option`.
* The component state is a record of the six `useState` cells.  A handler is a
  function of the render snapshot it closes over, acting on a world made of
  the current state and a trace of the observable events (state setter calls,
  HTTP posts, console output), and possibly throwing.
* The HTTP client `api` lives outside the two source files; it is a parameter.
-/

namespace JobsCrawl

/-! ## Data model -/

/-- A JavaScript error value. -/
abbrev JsError := String

/-- A job posting record, as read by the page (`e.id`, `e.jobName`, ...). -/
structure Job where
  id : Nat
  jobName : String
  company : String
  description : String
  salary : Int
  typeOfWork : Option String
  location : String
  link : String
deriving DecidableEq, Repr

/-- The six `useState` cells of `Home`. -/
structure HomeState where
  loading : Bool
  data : Option (List Job)
  filteredList : Option (List Job)
  email : String
  query : String
  sliderValue : Int
deriving DecidableEq, Repr

/-- The initial values given to `useState`. -/
def initialState : HomeState :=
  { loading := false, data := some [], filteredList := some [],
    email := "", query := "", sliderValue := 0 }

/-! ## JavaScript array helpers -/

/-- The array read `arr[i]` for a numeric index: `undefined` outside the array. -/
def jsIndex {α : Type} (arr : List α) (i : Int) : Option α :=
  if i < 0 then none else arr.get? i.toNat

/-- The call `arr.sort(cmp)`: a stable sort placing `a` before `b` when
`cmp a b ≤ 0`. -/
def jsSort (cmp : Int → Int → Int) (arr : List Int) : List Int :=
  arr.insertionSort (fun a b => cmp a b ≤ 0)

/-! ## Memos -/

/-- The memo `availableJobs` (lines 61-65). -/
def availableJobs (s : HomeState) : List Nat :=
  if s.data.isNone && s.filteredList.isNone then []
  else
    match s.filteredList with
    | none =>
      match s.data with
      | some d => d.map (fun e => e.id)
      | none => []
    | some f => f.map (fun e => e.id)

/-- The memo `getSalary` (lines 67-71); `none` is `undefined`. -/
def getSalary (s : HomeState) : Option Int :=
  match s.data with
  | none => some 0
  | some d =>
    let salary := jsSort (fun a b => a - b) (d.map (fun e => e.salary))
    jsIndex salary ((salary.length : Int) - 1)

/-! ## Handlers: worlds, events and exceptions -/

/-- The request object handed to `api.post`. -/
inductive Body where
  | url (url : String)
  | emailLista (email : String) (lista : List Nat)
deriving DecidableEq, Repr

/-- What `api.post` resolves to; only the `data` field is read. -/
structure Response where
  data : List Job
deriving DecidableEq, Repr

/-- The HTTP client imported from `../api`: a call either resolves to a response
or rejects with an error. -/
structure Api where
  post : String → Body → Except JsError Response

/-- Observable events of a handler run, in program order. -/
inductive Event where
  | setLoading (v : Bool)
  | setData (v : Option (List Job))
  | setFilteredList (v : Option (List Job))
  | setEmail (v : String)
  | setQuery (v : String)
  | setSlidervalue (v : Int)
  | post (path : String) (body : Body)
  | consoleLog (e : JsError)
deriving DecidableEq, Repr

/-- The current component state together with the events seen so far. -/
structure World where
  state : HomeState
  trace : List Event
deriving DecidableEq, Repr

/-- A handler body: it transforms the world and either returns or throws. -/
def Handler (α : Type) : Type := World → Except JsError α × World

/-- Return without touching the world. -/
def Handler.pure {α : Type} (a : α) : Handler α := fun w => (Except.ok a, w)

/-- Sequencing: a throw skips the rest and keeps the world reached so far. -/
def Handler.bind {α β : Type} (m : Handler α) (f : α → Handler β) : Handler β :=
  fun w =>
    match m w with
    | (Except.ok a, w1) => f a w1
    | (Except.error e, w1) => (Except.error e, w1)

instance : Monad Handler where
  pure := Handler.pure
  bind := Handler.bind

/-- The statement `try { body } catch (error) { onError } finally { fin }`. -/
def tryCatchFinally (body : Handler Unit) (onError : JsError → Handler Unit)
    (fin : Handler Unit) : Handler Unit :=
  fun w =>
    let r1 := body w
    let r2 :=
      match r1 with
      | (Except.ok a, w1) => (Except.ok a, w1)
      | (Except.error e, w1) => onError e w1
    let r3 := fin r2.2
    match r3 with
    | (Except.error e, w3) => (Except.error e, w3)
    | (Except.ok _, w3) => (r2.1, w3)

/-- Record an event. -/
def emit (ev : Event) : Handler Unit :=
  fun w => (Except.ok (), { w with trace := w.trace ++ [ev] })

/-- Replace the state, recording the setter call. -/
def setCell (ev : Event) (f : HomeState → HomeState) : Handler Unit :=
  fun w => (Except.ok (), { state := f w.state, trace := w.trace ++ [ev] })

def setLoading (v : Bool) : Handler Unit :=
  setCell (Event.setLoading v) (fun s => { s with loading := v })

def setData (v : Option (List Job)) : Handler Unit :=
  setCell (Event.setData v) (fun s => { s with data := v })

def setFilteredList (v : Option (List Job)) : Handler Unit :=
  setCell (Event.setFilteredList v) (fun s => { s with filteredList := v })

def setEmail (v : String) : Handler Unit :=
  setCell (Event.setEmail v) (fun s => { s with email := v })

def setQuery (v : String) : Handler Unit :=
  setCell (Event.setQuery v) (fun s => { s with query := v })

def setSlidervalue (v : Int) : Handler Unit :=
  setCell (Event.setSlidervalue v) (fun s => { s with sliderValue := v })

/-- The call `console.log(error)`. -/
def consoleLog (e : JsError) : Handler Unit := emit (Event.consoleLog e)

/-- The awaited call `api.post(path, body)`: the request is recorded, a
rejection is thrown. -/
def apiPost (api : Api) (path : String) (body : Body) : Handler Response :=
  fun w =>
    (api.post path body, { w with trace := w.trace ++ [Event.post path body] })

/-! ## Service module (`services/resources/jobs.js`) -/

/-- The service `fetchJobs({url})`. -/
def fetchJobs (api : Api) (url : String) : Handler (List Job) := do
  let r ← apiPost api "/trabalhos" (Body.url url)
  return r.data

/-- The service `fetchEmail({email, lista})`. -/
def fetchEmail (api : Api) (email : String) (lista : List Nat) : Handler (List Job) := do
  let r ← apiPost api "/email" (Body.emailLista email lista)
  return r.data

/-! ## Callbacks of `Home` -/

/-- The callback `handleGetEmail` (lines 95-107), closed over the render `s`.
The memo `availableJobs` is always an array, so `availableJobs || []` is it. -/
def handleGetEmail (api : Api) (s : HomeState) : Handler Unit :=
  tryCatchFinally
    (do
      let _ ← fetchEmail api s.email (availableJobs s)
      setEmail "")
    (fun error => consoleLog error)
    (setLoading false)

/-- The callback `handleGetData` (lines 109-122), closed over the render `s`. -/
def handleGetData (api : Api) (s : HomeState) : Handler Unit :=
  tryCatchFinally
    (do
      setLoading true
      let response ← fetchJobs api s.query
      setFilteredList (some response)
      setData (some response))
    (fun error => consoleLog error)
    (setLoading false)

/-- The callback `handleListFilter` (lines 124-128), closed over the render `s`. -/
def handleListFilter (s : HomeState) : Handler Unit :=
  match s.data, s.filteredList with
  | some data, some _ => do
    if s.sliderValue = 0 then setFilteredList (some data)
    setFilteredList (some (data.filter (fun e => decide (e.salary ≥ s.sliderValue))))
  | _, _ => return ()

/-- Run a handler from a state with an empty trace. -/
def run (h : Handler Unit) (s : HomeState) : Except JsError Unit × World :=
  h { state := s, trace := [] }

/-- The state a handler leaves behind. -/
def finalState (h : Handler Unit) (s : HomeState) : HomeState :=
  (run h s).2.state

/-- The events a handler produced. -/
def events (h : Handler Unit) (s : HomeState) : List Event :=
  (run h s).2.trace

/-- Whether the handler returned normally (no error reached its caller). -/
def returnsNormally (h : Handler Unit) (s : HomeState) : Bool :=
  match (run h s).1 with
  | Except.ok _ => true
  | Except.error _ => false

/-- The requests sent to the HTTP client, in order. -/
def posts : List Event → List (String × Body)
  | [] => []
  | Event.post path body :: rest => (path, body) :: posts rest
  | _ :: rest => posts rest

/-! ## Rendering -/

/-- Props handed to `RangeSlider` (lines 170-177). -/
structure SliderProps where
  value : Int
  max : Option Int
  min : Int
  step : Int
deriving DecidableEq, Repr

/-- One rendered `article` (lines 186-221). -/
structure Card where
  id : Nat
  index : Nat
  job : Job
  showSalary : Bool
  showTypeOfWork : Bool
deriving DecidableEq, Repr

/-- The content of `main`: the placeholder or the cards (lines 182-223). -/
inductive MainView where
  | carregando
  | cards (cs : List Card)
deriving DecidableEq, Repr

/-- What a render produces. -/
structure View where
  slider : Option SliderProps
  main : MainView
deriving DecidableEq, Repr

/-- The article built for the posting `e` at position `i`. -/
def card (i : Nat) (e : Job) : Card :=
  { id := e.id, index := i, job := e,
    showSalary := decide (e.salary ≠ 0),
    showTypeOfWork :=
      match e.typeOfWork with
      | some t => decide (t ≠ "")
      | none => false }

/-- The JSX returned by `Home` (lines 147-253); `none` when the render throws,
which reading `filteredList.length` of an absent value does. -/
def render (s : HomeState) : Option View :=
  match s.filteredList with
  | none => none
  | some f =>
    some
      { slider :=
          if f.length ≠ 0 then
            some { value := s.sliderValue, max := getSalary s, min := 0, step := 500 }
          else none,
        main :=
          if s.loading then MainView.carregando
          else MainView.cards (f.enum.map (fun p => card p.1 p.2)) }

/-- The cards on screen. -/
def renderedCards (s : HomeState) : List Card :=
  match render s with
  | some { main := MainView.cards cs, .. } => cs
  | _ => []

/-- Whether the range slider is on screen. -/
def sliderRendered (s : HomeState) : Bool :=
  match render s with
  | some v => v.slider.isSome
  | none => false

/-! ## The effect and the transition system -/

/-- The effect `useEffect(() => handleListFilter(), [handleListFilter])` run
against the committed render `s`. -/
def listFilterEffect (s : HomeState) : HomeState :=
  finalState (handleListFilter s) s

/-- User actions. The client is part of a submit action: the backend may answer
differently each time. The slider reports the pair of its thumbs, of which
`onInput` keeps the second. -/
inductive Action where
  | typeQuery (v : String)
  | typeEmail (v : String)
  | submitSearch (api : Api)
  | adjustThreshold (e : Int × Int)
  | submitEmail (api : Api)

/-- The handler an action invokes. -/
def Action.handler (s : HomeState) : Action → Handler Unit
  | Action.typeQuery v => setQuery v
  | Action.typeEmail v => setEmail v
  | Action.submitSearch api => handleGetData api s
  | Action.adjustThreshold e => setSlidervalue e.2
  | Action.submitEmail api => handleGetEmail api s

/-- Whether `setData` was called: the response array is a fresh object, so the
`data` dependency changed. -/
def dataReplaced : List Event → Bool
  | [] => false
  | Event.setData _ :: _ => true
  | _ :: rest => dataReplaced rest

/-- Whether the dependencies `[sliderValue, data]` of `handleListFilter`
changed, so that the effect is run again. -/
def effectTriggered (before : HomeState) (w : World) : Bool :=
  dataReplaced w.trace || decide (w.state.sliderValue ≠ before.sliderValue)

/-- One user action followed by the effect it triggers. -/
def step (a : Action) (s : HomeState) : HomeState :=
  let w := (run (a.handler s) s).2
  if effectTriggered s w then listFilterEffect w.state else w.state

/-- States the page can be in between user actions: the mounted page (first
render and its effect) and whatever a sequence of actions leads to. -/
inductive Reachable : HomeState → Prop where
  | mount : Reachable (listFilterEffect initialState)
  | step (a : Action) (s : HomeState) : Reachable s → Reachable (step a s)

/-! ## Sample data -/

/-- A posting with the given identifier and salary. -/
def sampleJob (id : Nat) (salary : Int) : Job :=
  { id := id, jobName := "dev", company := "acme", description := "",
    salary := salary, typeOfWork := none, location := "remote",
    link := "https://example.com" }

/-- A backend that answers every request with the postings `l`. -/
def okApi (l : List Job) : Api := { post := fun _ _ => Except.ok { data := l } }

/-- A backend whose every request fails. -/
def failApi : Api := { post := fun _ _ => Except.error "Network Error" }

/-- A state of the loaded page showing `f` out of `d`. -/
def sampleState (d f : Option (List Job)) (t : Int) (loading : Bool) : HomeState :=
  { loading := loading, data := d, filteredList := f, email := "a@b.com",
    query := "https://example.com/jobs", sliderValue := t }

end JobsCrawl

namespace JobsCrawl

/-! ## Evaluation lemmas for the handlers -/

theorem handleListFilter_present (s : HomeState) (D F : List Job)
    (hD : s.data = some D) (hF : s.filteredList = some F) :
    finalState (handleListFilter s) s =
      { s with filteredList := some (D.filter (fun e => decide (e.salary ≥ s.sliderValue))) } := by
  obtain ⟨l, d, f, e, q, sv⟩ := s
  simp only at hD hF
  subst hD hF
  unfold finalState run handleListFilter
  by_cases h : sv = 0
  · simp only [h, if_true]
    rfl
  · simp only [h, if_false]
    rfl

theorem handleListFilter_absent (s : HomeState)
    (h : s.data = none ∨ s.filteredList = none) :
    finalState (handleListFilter s) s = s := by
  obtain ⟨l, d, f, e, q, sv⟩ := s
  simp only at h
  unfold finalState run handleListFilter
  rcases h with h | h
  · subst h; rfl
  · subst h; cases d <;> rfl

/-- A render that does not throw has read `filteredList.length`: the filtered
view is present. -/
theorem view_present_of_render (s : HomeState) (h : render s ≠ none) :
    s.filteredList ≠ none := by
  intro hF
  apply h
  unfold render
  rw [hF]

/-- A slider on screen comes from a render that did not throw. -/
theorem render_of_sliderRendered (s : HomeState) (h : sliderRendered s = true) :
    render s ≠ none := by
  intro hr
  unfold sliderRendered at h
  rw [hr] at h
  exact Bool.false_ne_true h

/-! ## Lemmas on the array helpers -/

theorem jsIndex_last {α : Type} (l : List α) :
    jsIndex l ((l.length : Int) - 1) = l.getLast? := by
  unfold jsIndex
  cases l with
  | nil => simp
  | cons a t =>
    have h1 : ¬ (((a :: t).length : Int) - 1 < 0) := by
      simp only [List.length_cons]; push_cast; omega
    have h2 : (((a :: t).length : Int) - 1).toNat = (a :: t).length - 1 := by
      simp only [List.length_cons]; push_cast; omega
    rw [if_neg h1, h2, List.get?_eq_getElem?, List.getLast?_eq_getElem?]

theorem pairwise_getLast? {α : Type} (r : α → α → Prop) (hrefl : ∀ a, r a a) :
    ∀ (l : List α) (m : α), l.Pairwise r → l.getLast? = some m → ∀ x ∈ l, r x m
  | [], _, _, h, _, _ => by simp at h
  | [a], m, _, h, x, hx => by
    simp only [List.getLast?_singleton, Option.some.injEq] at h
    simp only [List.mem_singleton] at hx
    subst h hx
    exact hrefl _
  | a :: b :: t, m, hp, h, x, hx => by
    rw [List.getLast?_cons_cons] at h
    have hp' := List.pairwise_cons.mp hp
    rcases List.mem_cons.mp hx with hx | hx
    · subst hx
      exact hp'.1 m (List.mem_of_mem_getLast? h)
    · exact pairwise_getLast? r hrefl (b :: t) m hp'.2 h x hx

/-- The last element of the ascending sort is a maximum of the array. -/
theorem jsSort_last_max (l : List Int) (hne : l ≠ []) :
    ∃ m, jsIndex (jsSort (fun a b => a - b) l)
        (((jsSort (fun a b => a - b) l).length : Int) - 1) = some m ∧
      m ∈ l ∧ ∀ x ∈ l, x ≤ m := by
  have hperm : (jsSort (fun a b => a - b) l).Perm l := List.perm_insertionSort _ l
  haveI : IsTotal Int (fun a b => a - b ≤ 0) := ⟨fun a b => by omega⟩
  haveI : IsTrans Int (fun a b => a - b ≤ 0) := ⟨fun a b c h1 h2 => by omega⟩
  have hsorted : (jsSort (fun a b => a - b) l).Pairwise (fun a b => a - b ≤ 0) :=
    List.sorted_insertionSort (fun a b : Int => a - b ≤ 0) l
  have hne' : jsSort (fun a b => a - b) l ≠ [] := fun h => hne (by
    have := hperm.length_eq
    rw [h] at this
    exact List.length_eq_zero.mp this.symm)
  obtain ⟨m, hm⟩ : ∃ m, (jsSort (fun a b => a - b) l).getLast? = some m :=
    ⟨_, List.getLast?_eq_getLast _ hne'⟩
  refine ⟨m, by rw [jsIndex_last, hm], hperm.subset (List.mem_of_mem_getLast? hm), ?_⟩
  intro x hx
  have := pairwise_getLast? (fun a b : Int => a - b ≤ 0) (fun a => by omega) _ m hsorted hm x
    (hperm.symm.subset hx)
  omega

theorem getSalary_nonempty (s : HomeState) (D : List Job) (hD : s.data = some D)
    (hne : D ≠ []) :
    ∃ m, getSalary s = some m ∧ (∃ j ∈ D, j.salary = m) ∧ ∀ j ∈ D, j.salary ≤ m := by
  have hne' : D.map (fun e => e.salary) ≠ [] := by
    intro h; exact hne (List.map_eq_nil_iff.mp h)
  obtain ⟨m, h1, h2, h3⟩ := jsSort_last_max (D.map (fun e => e.salary)) hne'
  refine ⟨m, ?_, ?_, ?_⟩
  · unfold getSalary
    rw [hD]
    exact h1
  · obtain ⟨j, hj, e⟩ := List.mem_map.mp h2
    exact ⟨j, hj, e⟩
  · intro j hj
    exact h3 _ (List.mem_map.mpr ⟨j, hj, rfl⟩)

theorem cards_job (f : List Job) (n : Nat) :
    ((f.enumFrom n).map (fun p => card p.1 p.2)).map (fun c => c.job) = f := by
  induction f generalizing n with
  | nil => rfl
  | cons a t ih =>
    simp only [List.enumFrom_cons, List.map_cons]
    rw [ih]
    rfl

theorem cards_id (f : List Job) (n : Nat) :
    ((f.enumFrom n).map (fun p => card p.1 p.2)).map (fun c => c.id) =
      f.map (fun e => e.id) := by
  induction f generalizing n with
  | nil => rfl
  | cons a t ih =>
    simp only [List.enumFrom_cons, List.map_cons]
    rw [ih]
    rfl

theorem renderedCards_loaded (s : HomeState) (F : List Job)
    (hF : s.filteredList = some F) (hl : s.loading = false) :
    renderedCards s = F.enum.map (fun p => card p.1 p.2) := by
  unfold renderedCards render
  rw [hF, hl]
  rfl

/-! ## Evaluation lemmas for the request handlers -/

theorem run_handleGetData_error (api : Api) (s : HomeState) (e : JsError)
    (h : api.post "/trabalhos" (Body.url s.query) = Except.error e) :
    run (handleGetData api s) s =
      (Except.ok (),
        { state := { s with loading := false },
          trace := [Event.setLoading true, Event.post "/trabalhos" (Body.url s.query),
                    Event.consoleLog e, Event.setLoading false] }) := by
  simp [run, handleGetData, tryCatchFinally, fetchJobs, apiPost, setLoading, setCell,
    consoleLog, emit, bind, Handler.bind, h]

theorem run_handleGetData_ok (api : Api) (s : HomeState) (r : Response)
    (h : api.post "/trabalhos" (Body.url s.query) = Except.ok r) :
    run (handleGetData api s) s =
      (Except.ok (),
        { state := { s with loading := false, filteredList := some r.data, data := some r.data },
          trace := [Event.setLoading true, Event.post "/trabalhos" (Body.url s.query),
                    Event.setFilteredList (some r.data), Event.setData (some r.data),
                    Event.setLoading false] }) := by
  simp [run, handleGetData, tryCatchFinally, fetchJobs, apiPost, setLoading, setCell,
    setFilteredList, setData, bind, Handler.bind, pure, Handler.pure, h]

theorem run_handleGetEmail_error (api : Api) (s : HomeState) (e : JsError)
    (h : api.post "/email" (Body.emailLista s.email (availableJobs s)) = Except.error e) :
    run (handleGetEmail api s) s =
      (Except.ok (),
        { state := { s with loading := false },
          trace := [Event.post "/email" (Body.emailLista s.email (availableJobs s)),
                    Event.consoleLog e, Event.setLoading false] }) := by
  simp [run, handleGetEmail, tryCatchFinally, fetchEmail, apiPost, setLoading, setCell,
    consoleLog, emit, bind, Handler.bind, h]

theorem run_handleGetEmail_ok (api : Api) (s : HomeState) (r : Response)
    (h : api.post "/email" (Body.emailLista s.email (availableJobs s)) = Except.ok r) :
    run (handleGetEmail api s) s =
      (Except.ok (),
        { state := { s with loading := false, email := "" },
          trace := [Event.post "/email" (Body.emailLista s.email (availableJobs s)),
                    Event.setEmail "", Event.setLoading false] }) := by
  simp [run, handleGetEmail, tryCatchFinally, fetchEmail, apiPost, setLoading, setCell,
    setEmail, bind, Handler.bind, pure, Handler.pure, h]

/-! ## The invariant of the filtered view -/

/-- The filtered view is the canonical dataset filtered at the current threshold. -/
def FilteredAtThreshold (s : HomeState) : Prop :=
  ∃ D : List Job, s.data = some D ∧
    s.filteredList = some (D.filter (fun e => decide (e.salary ≥ s.sliderValue)))

theorem listFilterEffect_establishes (s : HomeState) (D F : List Job)
    (hD : s.data = some D) (hF : s.filteredList = some F) :
    FilteredAtThreshold (listFilterEffect s) := by
  unfold listFilterEffect
  rw [handleListFilter_present s D F hD hF]
  exact ⟨D, hD, rfl⟩

theorem step_preserves (a : Action) (s : HomeState) (h : FilteredAtThreshold s) :
    FilteredAtThreshold (step a s) := by
  obtain ⟨D, hD, hF⟩ := h
  cases a with
  | typeQuery v =>
    have : step (Action.typeQuery v) s = { s with query := v } := by
      simp [step, Action.handler, run, setQuery, setCell, effectTriggered, dataReplaced]
    rw [this]
    exact ⟨D, hD, hF⟩
  | typeEmail v =>
    have : step (Action.typeEmail v) s = { s with email := v } := by
      simp [step, Action.handler, run, setEmail, setCell, effectTriggered, dataReplaced]
    rw [this]
    exact ⟨D, hD, hF⟩
  | submitSearch api =>
    cases hr : api.post "/trabalhos" (Body.url s.query) with
    | error e =>
      have : step (Action.submitSearch api) s = { s with loading := false } := by
        simp [step, Action.handler, run_handleGetData_error api s e hr, effectTriggered,
          dataReplaced]
      rw [this]
      exact ⟨D, hD, hF⟩
    | ok r =>
      have : step (Action.submitSearch api) s =
          listFilterEffect
            { s with loading := false, filteredList := some r.data, data := some r.data } := by
        simp [step, Action.handler, run_handleGetData_ok api s r hr, effectTriggered,
          dataReplaced]
      rw [this]
      exact listFilterEffect_establishes _ r.data r.data rfl rfl
  | adjustThreshold e =>
    by_cases ht : e.2 = s.sliderValue
    · have : step (Action.adjustThreshold e) s = s := by
        obtain ⟨l, d, f, em, q, sv⟩ := s
        simp only at ht
        subst ht
        simp [step, Action.handler, run, setSlidervalue, setCell, effectTriggered,
          dataReplaced]
      rw [this]
      exact ⟨D, hD, hF⟩
    · have : step (Action.adjustThreshold e) s =
          listFilterEffect { s with sliderValue := e.2 } := by
        simp [step, Action.handler, run, setSlidervalue, setCell, effectTriggered,
          dataReplaced, ht]
      rw [this]
      exact listFilterEffect_establishes _ D _ hD hF
  | submitEmail api =>
    cases hr : api.post "/email" (Body.emailLista s.email (availableJobs s)) with
    | error e =>
      have : step (Action.submitEmail api) s = { s with loading := false } := by
        simp [step, Action.handler, run_handleGetEmail_error api s e hr, effectTriggered,
          dataReplaced]
      rw [this]
      exact ⟨D, hD, hF⟩
    | ok r =>
      have : step (Action.submitEmail api) s = { s with loading := false, email := "" } := by
        simp [step, Action.handler, run_handleGetEmail_ok api s r hr, effectTriggered,
          dataReplaced]
      rw [this]
      exact ⟨D, hD, hF⟩

/-- The mounted page is the initial state: the first effect filters the empty
dataset. -/
theorem mount_eq_initialState : listFilterEffect initialState = initialState := by
  decide

theorem reachable_filteredAtThreshold (s : HomeState) (h : Reachable s) :
    FilteredAtThreshold s := by
  induction h with
  | mount => exact listFilterEffect_establishes initialState [] [] rfl rfl
  | step a s _ ih => exact step_preserves a s ih

/-! ## The threshold handler -/

/-- C1: for every dataset `D` and threshold `t`, running `handleListFilter` with
`data = D` and `sliderValue = t`, from a render of the page (the effect, its only
caller, runs after a render that did not throw), leaves the filtered view equal
to the postings of `D` with `salary ≥ t`, in the order and with the
multiplicities of `D`, and changes no other cell. -/
theorem handleListFilter_filters (s : HomeState) (D : List Job) (t : Int)
    (hD : s.data = some D) (ht : s.sliderValue = t) (hr : render s ≠ none) :
    finalState (handleListFilter s) s =
      { s with filteredList := some (D.filter (fun e => decide (e.salary ≥ t))) } := by
  obtain ⟨F, hF⟩ := Option.ne_none_iff_exists'.mp (view_present_of_render s hr)
  rw [handleListFilter_present s D F hD hF, ht]

/-- C1 (witness): threshold 4000 over salaries 3000, 5000, 4000, 5000 keeps the
second, third and fourth postings, in that order. -/
theorem handleListFilter_filters_witness :
    (finalState
        (handleListFilter
          (sampleState (some [sampleJob 1 3000, sampleJob 2 5000, sampleJob 3 4000, sampleJob 2 5000])
            (some []) 4000 false))
        (sampleState (some [sampleJob 1 3000, sampleJob 2 5000, sampleJob 3 4000, sampleJob 2 5000])
            (some []) 4000 false)).filteredList =
      some [sampleJob 2 5000, sampleJob 3 4000, sampleJob 2 5000] := by
  have h := handleListFilter_filters
    (sampleState (some [sampleJob 1 3000, sampleJob 2 5000, sampleJob 3 4000, sampleJob 2 5000])
      (some []) 4000 false)
    [sampleJob 1 3000, sampleJob 2 5000, sampleJob 3 4000, sampleJob 2 5000] 4000 rfl rfl
    (by decide)
  rw [h]
  decide

/-- C2 (the code at the failing input): at threshold 0, with a dataset holding a
posting of salary -100 and one of salary 3000, `handleListFilter` first assigns
the full dataset and then overwrites it with the `salary ≥ 0` filter, so the
filtered view loses the first posting and differs from the dataset. -/
theorem handleListFilter_zero_drops_negative_salary :
    (finalState
        (handleListFilter
          (sampleState (some [sampleJob 1 (-100), sampleJob 2 3000])
            (some [sampleJob 1 (-100), sampleJob 2 3000]) 0 false))
        (sampleState (some [sampleJob 1 (-100), sampleJob 2 3000])
            (some [sampleJob 1 (-100), sampleJob 2 3000]) 0 false)).filteredList =
      some [sampleJob 2 3000] ∧
    events
        (handleListFilter
          (sampleState (some [sampleJob 1 (-100), sampleJob 2 3000])
            (some [sampleJob 1 (-100), sampleJob 2 3000]) 0 false))
        (sampleState (some [sampleJob 1 (-100), sampleJob 2 3000])
            (some [sampleJob 1 (-100), sampleJob 2 3000]) 0 false) =
      [Event.setFilteredList (some [sampleJob 1 (-100), sampleJob 2 3000]),
       Event.setFilteredList (some [sampleJob 2 3000])] := by
  decide

/-! ## The maximum-salary memo -/

/-- C3 (the code at the failing input): over the empty dataset, which is the
initial one, `getSalary` reads index -1 of the empty sorted array and yields
`undefined`, not 0; over an absent dataset it yields 0. -/
theorem getSalary_empty_undefined :
    initialState.data = some [] ∧
    getSalary initialState = none ∧
    getSalary { initialState with data := none } = some 0 := by
  decide

/-! ## The visible-id memo -/

/-- C5 (counterexample): while loading, with one posting in the filtered view,
the page renders the placeholder and no card, yet `availableJobs` lists the
identifier of the posting. -/
theorem availableJobs_while_loading :
    renderedCards (sampleState (some [sampleJob 7 5000]) (some [sampleJob 7 5000]) 0 true) = [] ∧
    availableJobs (sampleState (some [sampleJob 7 5000]) (some [sampleJob 7 5000]) 0 true) = [7] ∧
    (availableJobs (sampleState (some [sampleJob 7 5000]) (some [sampleJob 7 5000]) 0 true)).length ≠
      (renderedCards (sampleState (some [sampleJob 7 5000]) (some [sampleJob 7 5000]) 0 true)).length := by
  decide

/-- C5 (amended): for every state, `availableJobs` is the list of identifiers of
the filtered view when it is present, of the canonical dataset when the filtered
view is absent, and the empty list when both are absent; when moreover the
filtered view is present and the loading flag is false, these are the
identifiers of exactly the rendered cards, in rendered order, one card per
posting of the filtered view. -/
theorem availableJobs_ids (s : HomeState) :
    (∀ F, s.filteredList = some F → availableJobs s = F.map (fun e => e.id)) ∧
    (∀ D, s.filteredList = none → s.data = some D →
      availableJobs s = D.map (fun e => e.id)) ∧
    (s.filteredList = none → s.data = none → availableJobs s = []) ∧
    (∀ F, s.filteredList = some F → s.loading = false →
      (renderedCards s).map (fun c => c.job) = F ∧
      availableJobs s = (renderedCards s).map (fun c => c.id) ∧
      (availableJobs s).length = (renderedCards s).length) := by
  have h1 : ∀ F, s.filteredList = some F → availableJobs s = F.map (fun e => e.id) := by
    intro F hF
    unfold availableJobs
    rw [hF]
    simp
  refine ⟨h1, ?_, ?_, ?_⟩
  · intro D hF hD
    unfold availableJobs
    rw [hF, hD]
    simp
  · intro hF hD
    unfold availableJobs
    rw [hF, hD]
    simp
  · intro F hF hl
    rw [renderedCards_loaded s F hF hl, h1 F hF]
    refine ⟨cards_job F 0, (cards_id F 0).symm, ?_⟩
    simp [List.enum]

/-- C5 (witness): a loaded page showing the 5000 posting out of two lists the
identifier of that posting only, and renders one card for it. -/
theorem availableJobs_ids_witness :
    availableJobs (sampleState (some [sampleJob 1 3000, sampleJob 2 5000]) (some [sampleJob 2 5000]) 4000 false)
        = [2] ∧
      (renderedCards
        (sampleState (some [sampleJob 1 3000, sampleJob 2 5000]) (some [sampleJob 2 5000]) 4000 false)).map
          (fun c => c.job) = [sampleJob 2 5000] :=
  ⟨(availableJobs_ids
      (sampleState (some [sampleJob 1 3000, sampleJob 2 5000]) (some [sampleJob 2 5000]) 4000 false)).1
        [sampleJob 2 5000] rfl,
   ((availableJobs_ids
      (sampleState (some [sampleJob 1 3000, sampleJob 2 5000]) (some [sampleJob 2 5000]) 4000 false)).2.2.2
        [sampleJob 2 5000] rfl rfl).1⟩

/-- C4: for every non-empty dataset `D`, `getSalary` returns a number `m` that is
the salary of some posting of `D` and is at least the salary of every posting
of `D`; whenever the slider is rendered its `max` prop is this value. -/
theorem getSalary_is_maximum (s : HomeState) (D : List Job) (hD : s.data = some D)
    (hne : D ≠ []) :
    ∃ m, getSalary s = some m ∧ (∃ j ∈ D, j.salary = m) ∧ (∀ j ∈ D, j.salary ≤ m) ∧
      ∀ v p, render s = some v → v.slider = some p → p.max = some m := by
  obtain ⟨m, h1, h2, h3⟩ := getSalary_nonempty s D hD hne
  refine ⟨m, h1, h2, h3, ?_⟩
  intro v p hv hp
  unfold render at hv
  cases hF : s.filteredList with
  | none => rw [hF] at hv; simp at hv
  | some f =>
    rw [hF] at hv
    simp only [Option.some.injEq] at hv
    subst hv
    by_cases hlen : f.length ≠ 0
    · simp only [if_pos hlen, Option.some.injEq] at hp
      subst hp
      exact h1
    · simp only [if_neg hlen] at hp
      exact absurd hp (by simp)

/-- C4 (witness): over salaries 3000, 5000, 100 the memo yields 5000. -/
theorem getSalary_is_maximum_witness :
    getSalary (sampleState (some [sampleJob 1 3000, sampleJob 2 5000, sampleJob 3 100])
          (some [sampleJob 2 5000]) 0 false) = some 5000 ∧
    ∃ m, getSalary (sampleState (some [sampleJob 1 3000, sampleJob 2 5000, sampleJob 3 100])
          (some [sampleJob 2 5000]) 0 false) = some m ∧
      (∃ j ∈ [sampleJob 1 3000, sampleJob 2 5000, sampleJob 3 100], j.salary = m) ∧
      (∀ j ∈ [sampleJob 1 3000, sampleJob 2 5000, sampleJob 3 100], j.salary ≤ m) ∧
      ∀ v p, render (sampleState (some [sampleJob 1 3000, sampleJob 2 5000, sampleJob 3 100])
          (some [sampleJob 2 5000]) 0 false) = some v → v.slider = some p → p.max = some m :=
  ⟨by decide,
   getSalary_is_maximum
    (sampleState (some [sampleJob 1 3000, sampleJob 2 5000, sampleJob 3 100])
      (some [sampleJob 2 5000]) 0 false)
    [sampleJob 1 3000, sampleJob 2 5000, sampleJob 3 100] rfl (by decide)⟩

/-! ## The request handlers -/

/-- C7: when the search call fails, `handleGetData` first sets the loading flag
to true, sends the one request, logs the error and sets the loading flag to
false; it returns normally and leaves every other cell (dataset, filtered view,
threshold, query, email) as it was. -/
theorem handleGetData_failure (api : Api) (s : HomeState) (e : JsError)
    (h : api.post "/trabalhos" (Body.url s.query) = Except.error e) :
    returnsNormally (handleGetData api s) s = true ∧
    events (handleGetData api s) s =
      [Event.setLoading true, Event.post "/trabalhos" (Body.url s.query),
       Event.consoleLog e, Event.setLoading false] ∧
    finalState (handleGetData api s) s = { s with loading := false } := by
  simp [returnsNormally, events, finalState, run_handleGetData_error api s e h]

/-- C7 (witness): a failed second search on a page showing one of two postings. -/
theorem handleGetData_failure_witness :
    finalState (handleGetData failApi
        (sampleState (some [sampleJob 1 3000, sampleJob 2 5000]) (some [sampleJob 2 5000]) 4000 false))
      (sampleState (some [sampleJob 1 3000, sampleJob 2 5000]) (some [sampleJob 2 5000]) 4000 false) =
      sampleState (some [sampleJob 1 3000, sampleJob 2 5000]) (some [sampleJob 2 5000]) 4000 false :=
  (handleGetData_failure failApi
    (sampleState (some [sampleJob 1 3000, sampleJob 2 5000]) (some [sampleJob 2 5000]) 4000 false)
    "Network Error" rfl).2.2

/-- C9: when the search call, made with the current query as `url`, succeeds with
the postings `R`, `handleGetData` ends with the canonical dataset and the
filtered view both equal to `R` and the loading flag false, the threshold, the
query and the email being unchanged; it returns normally. -/
theorem handleGetData_success (api : Api) (s : HomeState) (R : List Job)
    (h : api.post "/trabalhos" (Body.url s.query) = Except.ok { data := R }) :
    returnsNormally (handleGetData api s) s = true ∧
    posts (events (handleGetData api s) s) = [("/trabalhos", Body.url s.query)] ∧
    finalState (handleGetData api s) s =
      { loading := false, data := some R, filteredList := some R,
        email := s.email, query := s.query, sliderValue := s.sliderValue } := by
  simp [returnsNormally, events, finalState, run_handleGetData_ok api s _ h, posts]

/-- C9 (witness): a search from the initial state answered with salaries 3000 and
5000. -/
theorem handleGetData_success_witness :
    finalState (handleGetData (okApi [sampleJob 1 3000, sampleJob 2 5000]) initialState)
        initialState =
      { loading := false, data := some [sampleJob 1 3000, sampleJob 2 5000],
        filteredList := some [sampleJob 1 3000, sampleJob 2 5000],
        email := "", query := "", sliderValue := 0 } :=
  (handleGetData_success (okApi [sampleJob 1 3000, sampleJob 2 5000]) initialState
    [sampleJob 1 3000, sampleJob 2 5000] rfl).2.2

/-- C8: `handleGetEmail` sends exactly one request, to `/email`, carrying the
current email and `availableJobs` as `lista`; it returns normally, and the email
cell ends empty when the call succeeded and unchanged when it failed. -/
theorem handleGetEmail_contract (api : Api) (s : HomeState) :
    posts (events (handleGetEmail api s) s) =
      [("/email", Body.emailLista s.email (availableJobs s))] ∧
    returnsNormally (handleGetEmail api s) s = true ∧
    (finalState (handleGetEmail api s) s).email =
      (match api.post "/email" (Body.emailLista s.email (availableJobs s)) with
       | Except.ok _ => ""
       | Except.error _ => s.email) := by
  cases hr : api.post "/email" (Body.emailLista s.email (availableJobs s)) with
  | error e =>
    simp [returnsNormally, events, finalState, run_handleGetEmail_error api s e hr, posts]
  | ok r =>
    simp [returnsNormally, events, finalState, run_handleGetEmail_ok api s r hr, posts]

/-! ## Reachable states -/

/-- C6: in every state reachable from the mounted page by user actions (typing,
submitting a search that succeeds or fails, moving the threshold, submitting
the email), each followed by the list-filter effect it triggers, the filtered
view is the sublist of the canonical dataset made of exactly the postings with
`salary ≥` the current threshold. -/
theorem reachable_filtered_view (s : HomeState) (h : Reachable s) :
    ∃ D F, s.data = some D ∧ s.filteredList = some F ∧
      F = D.filter (fun e => decide (e.salary ≥ s.sliderValue)) ∧
      F.Sublist D ∧ ∀ j, j ∈ F ↔ j ∈ D ∧ j.salary ≥ s.sliderValue := by
  obtain ⟨D, hD, hF⟩ := reachable_filteredAtThreshold s h
  refine ⟨D, _, hD, hF, rfl, List.filter_sublist D, ?_⟩
  intro j
  simp [List.mem_filter]

/-- C6 (witness): search answered with salaries 3000 and 5000, threshold moved to
4000, email submitted, then a failing search. -/
theorem reachable_filtered_view_witness :
    ∃ D F,
      (step (Action.submitSearch failApi)
        (step (Action.submitEmail (okApi []))
          (step (Action.adjustThreshold (0, 4000))
            (step (Action.submitSearch (okApi [sampleJob 1 3000, sampleJob 2 5000]))
              (listFilterEffect initialState))))).data = some D ∧
      (step (Action.submitSearch failApi)
        (step (Action.submitEmail (okApi []))
          (step (Action.adjustThreshold (0, 4000))
            (step (Action.submitSearch (okApi [sampleJob 1 3000, sampleJob 2 5000]))
              (listFilterEffect initialState))))).filteredList = some F ∧
      F = D.filter (fun e => decide (e.salary ≥
        (step (Action.submitSearch failApi)
          (step (Action.submitEmail (okApi []))
            (step (Action.adjustThreshold (0, 4000))
              (step (Action.submitSearch (okApi [sampleJob 1 3000, sampleJob 2 5000]))
                (listFilterEffect initialState))))).sliderValue)) ∧
      F.Sublist D ∧ ∀ j, j ∈ F ↔ j ∈ D ∧ j.salary ≥
        (step (Action.submitSearch failApi)
          (step (Action.submitEmail (okApi []))
            (step (Action.adjustThreshold (0, 4000))
              (step (Action.submitSearch (okApi [sampleJob 1 3000, sampleJob 2 5000]))
                (listFilterEffect initialState))))).sliderValue :=
  reachable_filtered_view _
    (Reachable.step _ _ (Reachable.step _ _ (Reachable.step _ _
      (Reachable.step _ _ Reachable.mount))))

/-! ## The slider within its range -/

/-- C10: for every non-empty dataset `D` and every threshold `t` with
`0 ≤ t ≤ getSalary`, the slider being on screen, the filtered view computed by
`handleListFilter` is non-empty and holds a posting of maximum salary, so the
slider is rendered again: moving it within its range never filters it away. -/
theorem slider_range_keeps_view_nonempty (s : HomeState) (D : List Job) (t m : Int)
    (hD : s.data = some D) (hne : D ≠ []) (hs : sliderRendered s = true)
    (ht : s.sliderValue = t) (hm : getSalary s = some m) (_h0 : 0 ≤ t) (htm : t ≤ m) :
    ∃ F, (listFilterEffect s).filteredList = some F ∧ F ≠ [] ∧
      (∃ j ∈ F, j.salary = m) ∧ sliderRendered (listFilterEffect s) = true := by
  obtain ⟨F0, hF0⟩ := Option.ne_none_iff_exists'.mp
    (view_present_of_render s (render_of_sliderRendered s hs))
  obtain ⟨m', hm', ⟨j, hj, hjm⟩, _⟩ := getSalary_nonempty s D hD hne
  have hmm : m' = m := by rw [hm] at hm'; exact (Option.some.inj hm').symm
  subst hmm
  have hjF : j ∈ D.filter (fun e => decide (e.salary ≥ s.sliderValue)) := by
    rw [List.mem_filter]
    refine ⟨hj, ?_⟩
    simp only [decide_eq_true_eq]
    omega
  have hne' : D.filter (fun e => decide (e.salary ≥ s.sliderValue)) ≠ [] :=
    List.ne_nil_of_mem hjF
  refine ⟨_, ?_, hne', ⟨j, hjF, hjm⟩, ?_⟩
  · unfold listFilterEffect
    rw [handleListFilter_present s D F0 hD hF0]
  · unfold listFilterEffect
    rw [handleListFilter_present s D F0 hD hF0]
    have hlen : (D.filter (fun e => decide (e.salary ≥ s.sliderValue))).length ≠ 0 :=
      fun h => hne' (List.length_eq_zero.mp h)
    simp [sliderRendered, render, hlen]

/-- C10 (witness): with salaries 3000 and 5000 and the slider at its upper limit
5000, the filtered view keeps the 5000 posting. -/
theorem slider_range_keeps_view_nonempty_witness :
    ∃ F, (listFilterEffect
        (sampleState (some [sampleJob 1 3000, sampleJob 2 5000])
          (some [sampleJob 1 3000, sampleJob 2 5000]) 5000 false)).filteredList = some F ∧
      F ≠ [] ∧ (∃ j ∈ F, j.salary = 5000) ∧
      sliderRendered (listFilterEffect
        (sampleState (some [sampleJob 1 3000, sampleJob 2 5000])
          (some [sampleJob 1 3000, sampleJob 2 5000]) 5000 false)) = true :=
  slider_range_keeps_view_nonempty
    (sampleState (some [sampleJob 1 3000, sampleJob 2 5000])
      (some [sampleJob 1 3000, sampleJob 2 5000]) 5000 false)
    [sampleJob 1 3000, sampleJob 2 5000] 5000 5000 rfl (by decide) (by decide) rfl
    (by decide) (by decide) (by decide)

end JobsCrawl
